import Mathlib

/-!
Shallow embedding of the file-locker crate (src/src/lib.rs and src/src/file_lock.rs).

The crate acquires POSIX advisory record locks on whole files via fcntl.
We embed the operating system as an explicit state `Sys` holding the file
system, the table of open descriptors of the current process, the table of
record locks the current process holds (keyed by path, matching the
process-associated lock semantics of POSIX), and a trace of the syscalls
issued.  Kernel arbitration of a lock request against other processes is
abstracted by an environment oracle `Env`: `lockReply = none` means the
kernel grants the request, `lockReply = some e` means the request fails
with errno `e` (for instance EAGAIN for a contended non-blocking request,
or EINTR for an interrupted blocking wait).  Removing a lock (F_UNLCK)
never contends, so it succeeds unconditionally on a valid descriptor.

Numeric constants are the Linux values used by the crate through libc.
-/

/-- Linux errno: bad file descriptor. -/
def EBADF : Int := 9

/-- Linux errno: no such file or directory. -/
def ENOENT : Int := 2

/-- Linux errno: resource temporarily unavailable (would block). -/
def EAGAIN : Int := 11

/-- Linux errno: interrupted system call. -/
def EINTR : Int := 4

/-- Linux errno: permission denied. -/
def EACCES : Int := 13

/-- Lock type constant: shared read lock. -/
def F_RDLCK : Int := 0

/-- Lock type constant: exclusive write lock. -/
def F_WRLCK : Int := 1

/-- Lock type constant: remove lock. -/
def F_UNLCK : Int := 2

/-- Whence constant: offsets relative to start of file. -/
def SEEK_SET : Int := 0

/-- fcntl command: set record lock, non-blocking. -/
def F_SETLK : Int := 6

/-- fcntl command: set record lock, blocking wait. -/
def F_SETLKW : Int := 7

/-- The native record-lock descriptor `struct flock` as the crate fills it. -/
structure Flock where
  l_type : Int
  l_whence : Int
  l_start : Int
  l_len : Int
  l_pid : Int
  deriving DecidableEq, Repr

/-- The all-zero flock value produced by `mem::zeroed()` in file_lock.rs. -/
def zeroFlock : Flock :=
  { l_type := 0, l_whence := 0, l_start := 0, l_len := 0, l_pid := 0 }

/-- A syscall event, recorded in the trace of the modelled OS state. -/
inductive Sysevent where
  | openCall (path : String) (read write create truncate : Bool)
  | fcntlCall (fd : Int) (cmd : Int) (fl : Flock)
  deriving DecidableEq, Repr

/-- The modelled OS state visible to this process: file contents per path,
open descriptors of the process, record locks the process holds (keyed by
path: POSIX record locks are process-associated), the next fresh
descriptor, and the trace of issued syscalls (most recent first). -/
structure Sys where
  fs : List (String × List Nat)
  openFds : List (Int × String)
  procLocks : List (String × Int)
  nextFd : Int
  trace : List Sysevent
  deriving DecidableEq, Repr

/-- Environment oracle for kernel arbitration of a lock request against
other processes: `none` grants the request, `some e` fails it with errno
`e` (e.g. EAGAIN when a non-blocking request is contended, EINTR when a
blocking wait is interrupted by a signal). -/
structure Env where
  lockReply : Option Int
  deriving DecidableEq, Repr

/-- Model of `OpenOptions::new().read(read).write(write).create(create)
.open(path)` (with `truncate` kept explicit; the crate leaves it at its
default `false`).  An existing file is opened in place, truncated to empty
only when `truncate` is set; an absent file is created empty when `create`
is set, and otherwise the open fails with ENOENT.  Returns the raw errno
on failure, since a Rust `io::Error` from a failed open carries the OS
code. -/
def fileOpen (st : Sys) (path : String) (read write create truncate : Bool) :
    Except Int Int × Sys :=
  let st0 : Sys :=
    { st with trace := Sysevent.openCall path read write create truncate :: st.trace }
  match st.fs.lookup path with
  | some _ =>
      (Except.ok st.nextFd,
        { st0 with
          fs := if truncate ∧ write then (path, []) :: st0.fs.eraseP (fun q => q.1 == path)
                else st0.fs
          openFds := (st.nextFd, path) :: st0.openFds
          nextFd := st.nextFd + 1 })
  | none =>
      if create ∧ write then
        (Except.ok st.nextFd,
          { st0 with
            fs := (path, []) :: st0.fs
            openFds := (st.nextFd, path) :: st0.openFds
            nextFd := st.nextFd + 1 })
      else
        (Except.error ENOENT, st0)

/-- Model of dropping a `std::fs::File`: the descriptor is closed.  Per
the process-associated record-lock semantics of POSIX, closing any
descriptor a process holds for a file releases every record lock the
process holds on that file, independent of which descriptor acquired it,
so the locks on the path of the closed descriptor are removed as well. -/
def closeFd (fd : Int) (st : Sys) : Sys :=
  { st with
    openFds := st.openFds.eraseP (fun q => q.1 == fd)
    procLocks :=
      match st.openFds.lookup fd with
      | some path => st.procLocks.filter (fun q => ¬ q.1 = path)
      | none => st.procLocks }

/-- Model of the `fcntl(fd, cmd, &fl)` record-lock syscall.  An unknown
descriptor fails with EBADF.  An F_UNLCK request always succeeds and
removes the lock the process holds on the path (removing a lock cannot
contend).  Any other lock request is arbitrated by the environment: on
grant, the lock the process holds on the path is replaced by the requested
type; on refusal, the state is unchanged and the errno of the refusal is
returned.  Failures carry the raw errno, as `nix::fcntl::fcntl` reports
them via `Errno`. -/
def fcntlSys (env : Env) (st : Sys) (fd : Int) (cmd : Int) (fl : Flock) :
    Except Int Unit × Sys :=
  let st0 : Sys := { st with trace := Sysevent.fcntlCall fd cmd fl :: st.trace }
  match st.openFds.lookup fd with
  | none => (Except.error EBADF, st0)
  | some path =>
      if fl.l_type = F_UNLCK then
        (Except.ok (), { st0 with procLocks := st0.procLocks.filter (fun q => ¬ q.1 = path) })
      else
        match env.lockReply with
        | none =>
            (Except.ok (),
              { st0 with
                procLocks := (path, fl.l_type) :: st0.procLocks.filter (fun q => ¬ q.1 = path) })
        | some e => (Except.error e, st0)

/-- Rust `std::io::Error` as this crate produces it: always built by
`Error::from_raw_os_error`, hence always carrying a raw OS code. -/
structure OsErr where
  code : Int
  deriving DecidableEq, Repr

/-- Embeds `cver` (lib.rs lines 263-268), the mapper from a `nix::Error` to
`std::io::Error`.  The `nix` errors produced by `fcntl` always carry an
errno (`as_errno` returns `Some`), so the `None => ErrorKind::Other` branch
is unreachable for the calls this crate makes and the errno branch is the
one modelled: the original OS code is preserved. -/
def cver (e : Int) : OsErr := { code := e }

/-- Embeds the `nix::fcntl::FcntlArg` values the crate uses. -/
inductive FcntlArg where
  | F_SETLK (fl : Flock)
  | F_SETLKW (fl : Flock)
  deriving DecidableEq, Repr

/-- The raw fcntl command an `FcntlArg` stands for (kept outside the
`FcntlArg` namespace so that the constant names resolve to the libc
values). -/
def fcntlCmd : FcntlArg → Int
  | FcntlArg.F_SETLK _ => F_SETLK
  | FcntlArg.F_SETLKW _ => F_SETLKW

/-- The flock record an `FcntlArg` carries. -/
def fcntlFl : FcntlArg → Flock
  | FcntlArg.F_SETLK fl => fl
  | FcntlArg.F_SETLKW fl => fl

/-- The handle type (lib.rs struct `FileLock`): owns the open `File`,
modelled by its descriptor. -/
structure FileLock where
  file : Int
  deriving DecidableEq, Repr

/-- Embeds `FileLock::lock` (lib.rs lines 113-141): open the file with
read always and write/create iff `writeable`, build the whole-file flock
record, issue it via fcntl with F_SETLKW iff `blocking`, map any fcntl
failure through `cver`; on failure the just-opened `File` goes out of
scope and is closed. -/
def FileLock.lock (env : Env) (st : Sys) (file_path : String)
    (blocking writeable : Bool) : Except OsErr FileLock × Sys :=
  match fileOpen st file_path true writeable writeable false with
  | (Except.error e, st1) => (Except.error { code := e }, st1)
  | (Except.ok fd, st1) =>
      let flock : Flock :=
        { l_type := if writeable then F_WRLCK else F_RDLCK
          l_whence := SEEK_SET
          l_start := 0
          l_len := 0
          l_pid := 0 }
      let arg := if blocking then FcntlArg.F_SETLKW flock else FcntlArg.F_SETLK flock
      match fcntlSys env st1 fd (fcntlCmd arg) (fcntlFl arg) with
      | (Except.ok _, st2) => (Except.ok { file := fd }, st2)
      | (Except.error e, st2) => (Except.error (cver e), closeFd fd st2)

/-- Embeds `FileLock::unlock` (lib.rs lines 167-178): issue a
non-blocking F_SETLK request with an F_UNLCK whole-file flock record on
the owned descriptor, mapping any failure through `cver`; the file is not
closed. -/
def FileLock.unlock (env : Env) (st : Sys) (h : FileLock) :
    Except OsErr Unit × Sys :=
  let flock : Flock :=
    { l_type := F_UNLCK
      l_whence := SEEK_SET
      l_start := 0
      l_len := 0
      l_pid := 0 }
  let arg := FcntlArg.F_SETLK flock
  match fcntlSys env st h.file (fcntlCmd arg) (fcntlFl arg) with
  | (Except.ok _, st1) => (Except.ok (), st1)
  | (Except.error e, st1) => (Except.error (cver e), st1)

/-- Embeds `impl Drop for FileLock` (lib.rs lines 257-261): the destructor
runs `let _ = self.unlock();`, discarding the result, and then the owned
`File` field is dropped, closing the descriptor. -/
def FileLock.drop (env : Env) (st : Sys) (h : FileLock) : Sys :=
  closeFd h.file (FileLock.unlock env st h).2

/-- Embeds the builder struct `FileLockBuilder` (lib.rs lines 230-235). -/
structure FileLockBuilder where
  file_path : String
  blocking : Bool
  writeable : Bool
  deriving DecidableEq, Repr

/-- Embeds `FileLock::new` (lib.rs lines 76-82): a builder with both flags
defaulted to false. -/
def FileLock.new (file_path : String) : FileLockBuilder :=
  { file_path := file_path, blocking := false, writeable := false }

/-- Embeds the builder method `FileLockBuilder::blocking` (lib.rs lines
239-242); named with a `set` prefix because the field projection already
takes the source name. -/
def FileLockBuilder.setBlocking (b : FileLockBuilder) (v : Bool) : FileLockBuilder :=
  { b with blocking := v }

/-- Embeds the builder method `FileLockBuilder::writeable` (lib.rs lines
245-248); named with a `set` prefix because the field projection already
takes the source name. -/
def FileLockBuilder.setWriteable (b : FileLockBuilder) (v : Bool) : FileLockBuilder :=
  { b with writeable := v }

/-- Embeds `FileLockBuilder::lock` (lib.rs lines 252-254): delegates to
`FileLock::lock` with the accumulated configuration. -/
def FileLockBuilder.lock (env : Env) (st : Sys) (b : FileLockBuilder) :
    Except OsErr FileLock × Sys :=
  FileLock.lock env st b.file_path b.blocking b.writeable

/-- Embeds `c_lock` (file_lock.rs lines 5-26): validate the descriptor is
non-negative (EBADF otherwise, before any syscall), fill a zeroed flock
record with the requested type and whole-file region, issue it with the
blocking or non-blocking command, and return 0 on success or the raw errno
on failure. -/
def c_lock (env : Env) (st : Sys) (fd is_blocking is_writable : Int) : Int × Sys :=
  if fd < 0 then (EBADF, st)
  else
    let fl : Flock :=
      { zeroFlock with
        l_type := if is_writable ≠ 0 then F_WRLCK else F_RDLCK
        l_whence := SEEK_SET
        l_start := 0
        l_len := 0 }
    match fcntlSys env st fd (if is_blocking ≠ 0 then F_SETLKW else F_SETLK) fl with
    | (Except.ok _, st1) => (0, st1)
    | (Except.error e, st1) => (e, st1)

/-- Embeds `c_unlock` (file_lock.rs lines 29-49): validate the descriptor
is non-negative (EBADF otherwise, before any syscall), fill a zeroed flock
record with F_UNLCK over the whole file, issue it with the non-blocking
command, and return 0 on success or the raw errno on failure. -/
def c_unlock (env : Env) (st : Sys) (fd : Int) : Int × Sys :=
  if fd < 0 then (EBADF, st)
  else
    let fl : Flock :=
      { zeroFlock with
        l_type := F_UNLCK
        l_whence := SEEK_SET
        l_start := 0
        l_len := 0 }
    match fcntlSys env st fd F_SETLK fl with
    | (Except.ok _, st1) => (0, st1)
    | (Except.error e, st1) => (e, st1)

/-- Modelled from the spec: the portable error taxonomy `LockError` of
section 7 of the spec is an abstraction over the OS codes the crate
surfaces; the crate itself returns `std::io::Error` values and defines no
such enum, so the taxonomy and its classification are taken from the
words of the spec. -/
inductive LockError where
  | InvalidDescriptor
  | WouldBlock
  | Interrupted
  | IoCode (code : Int)
  deriving DecidableEq, Repr

/-- Modelled from the spec: classification of a surfaced OS failure code
into the taxonomy of section 7 (EBADF is the invalid-descriptor check,
EAGAIN the contended non-blocking acquisition, EINTR the interrupted
blocking acquisition, and every other code the generic kind carrying the
original OS code). -/
def classify (e : OsErr) : LockError :=
  if e.code = EBADF then LockError.InvalidDescriptor
  else if e.code = EAGAIN then LockError.WouldBlock
  else if e.code = EINTR then LockError.Interrupted
  else LockError.IoCode e.code

/-- The most recent fcntl request in the trace, if the most recent syscall
was an fcntl: its command and flock record (the descriptor number is
elided so that request construction can be compared across call
surfaces). -/
def lastRequest (st : Sys) : Option (Int × Flock) :=
  match st.trace with
  | Sysevent.fcntlCall _ cmd fl :: _ => some (cmd, fl)
  | _ => none

/-- The flags of the most recent open syscall in the trace, if the trace
starts with one or with syscalls issued after it in the same operation. -/
def firstOpenCall : List Sysevent → Option (String × Bool × Bool × Bool × Bool)
  | [] => none
  | Sysevent.openCall p r w c t :: _ => some (p, r, w, c, t)
  | Sysevent.fcntlCall _ _ _ :: rest => firstOpenCall rest

/-- Number of fcntl syscalls in a trace. -/
def fcntlCount (tr : List Sysevent) : Nat :=
  (tr.filter fun e =>
    match e with
    | Sysevent.fcntlCall _ _ _ => true
    | _ => false).length

/-- A concrete sample state for witnesses: one file "f" with one byte,
open on descriptor 3, write-locked by this process. -/
def stA : Sys :=
  { fs := [("f", [1])], openFds := [(3, "f")], procLocks := [("f", 1)],
    nextFd := 4, trace := [] }

/-! Helper lemmas: closed-form behavior of the embedded operations in each
case of the file system, the descriptor table and the environment. -/

theorem lookup_filter_not (p : String) (l : List (String × Int)) :
    (l.filter fun q => ¬ q.1 = p).lookup p = none := by
  induction l with
  | nil => rfl
  | cons a t ih =>
      by_cases h : a.1 = p
      · simpa [List.filter_cons, h] using ih
      · have hb : (p == a.1) = false := beq_false_of_ne fun e => h e.symm
        have hf : (List.filter (fun q => ¬ q.1 = p) (a :: t))
            = a :: List.filter (fun q => ¬ q.1 = p) t := by
          simp [List.filter_cons, h]
        rw [hf, List.lookup_cons, hb, ih]

theorem lock_eq_open_fail (env : Env) (st : Sys) (p : String) (b : Bool)
    (hfs : st.fs.lookup p = none) :
    FileLock.lock env st p b false =
      (Except.error { code := ENOENT },
       { st with trace := Sysevent.openCall p true false false false :: st.trace }) := by
  simp [FileLock.lock, fileOpen, hfs]

theorem lock_eq_existing_granted (env : Env) (st : Sys) (p : String) (b w : Bool)
    (cont : List Nat) (hfs : st.fs.lookup p = some cont) (hrep : env.lockReply = none) :
    FileLock.lock env st p b w =
      (Except.ok { file := st.nextFd },
       { fs := st.fs
         openFds := (st.nextFd, p) :: st.openFds
         procLocks := (p, if w then F_WRLCK else F_RDLCK)
             :: st.procLocks.filter (fun q => ¬ q.1 = p)
         nextFd := st.nextFd + 1
         trace := Sysevent.fcntlCall st.nextFd (if b then F_SETLKW else F_SETLK)
               { l_type := if w then F_WRLCK else F_RDLCK, l_whence := SEEK_SET,
                 l_start := 0, l_len := 0, l_pid := 0 }
             :: Sysevent.openCall p true w w false :: st.trace }) := by
  cases w <;> cases b <;>
    simp [FileLock.lock, fileOpen, fcntlSys, hfs, hrep, fcntlCmd, fcntlFl,
      List.lookup, F_WRLCK, F_RDLCK, F_UNLCK, F_SETLK, F_SETLKW, SEEK_SET]

theorem lock_eq_existing_denied (env : Env) (st : Sys) (p : String) (b w : Bool)
    (cont : List Nat) (e : Int) (hfs : st.fs.lookup p = some cont)
    (hrep : env.lockReply = some e) :
    FileLock.lock env st p b w =
      (Except.error { code := e },
       { fs := st.fs
         openFds := st.openFds
         procLocks := st.procLocks.filter (fun q => ¬ q.1 = p)
         nextFd := st.nextFd + 1
         trace := Sysevent.fcntlCall st.nextFd (if b then F_SETLKW else F_SETLK)
               { l_type := if w then F_WRLCK else F_RDLCK, l_whence := SEEK_SET,
                 l_start := 0, l_len := 0, l_pid := 0 }
             :: Sysevent.openCall p true w w false :: st.trace }) := by
  cases w <;> cases b <;>
    simp [FileLock.lock, fileOpen, fcntlSys, closeFd, cver, hfs, hrep, fcntlCmd, fcntlFl,
      List.lookup, List.eraseP_cons, F_WRLCK, F_RDLCK, F_UNLCK, F_SETLK, F_SETLKW, SEEK_SET]

theorem lock_eq_created_granted (env : Env) (st : Sys) (p : String) (b : Bool)
    (hfs : st.fs.lookup p = none) (hrep : env.lockReply = none) :
    FileLock.lock env st p b true =
      (Except.ok { file := st.nextFd },
       { fs := (p, []) :: st.fs
         openFds := (st.nextFd, p) :: st.openFds
         procLocks := (p, F_WRLCK) :: st.procLocks.filter (fun q => ¬ q.1 = p)
         nextFd := st.nextFd + 1
         trace := Sysevent.fcntlCall st.nextFd (if b then F_SETLKW else F_SETLK)
               { l_type := F_WRLCK, l_whence := SEEK_SET,
                 l_start := 0, l_len := 0, l_pid := 0 }
             :: Sysevent.openCall p true true true false :: st.trace }) := by
  cases b <;>
    simp [FileLock.lock, fileOpen, fcntlSys, hfs, hrep, fcntlCmd, fcntlFl,
      List.lookup, F_WRLCK, F_RDLCK, F_UNLCK, F_SETLK, F_SETLKW, SEEK_SET]

theorem lock_eq_created_denied (env : Env) (st : Sys) (p : String) (b : Bool) (e : Int)
    (hfs : st.fs.lookup p = none) (hrep : env.lockReply = some e) :
    FileLock.lock env st p b true =
      (Except.error { code := e },
       { fs := (p, []) :: st.fs
         openFds := st.openFds
         procLocks := st.procLocks.filter (fun q => ¬ q.1 = p)
         nextFd := st.nextFd + 1
         trace := Sysevent.fcntlCall st.nextFd (if b then F_SETLKW else F_SETLK)
               { l_type := F_WRLCK, l_whence := SEEK_SET,
                 l_start := 0, l_len := 0, l_pid := 0 }
             :: Sysevent.openCall p true true true false :: st.trace }) := by
  cases b <;>
    simp [FileLock.lock, fileOpen, fcntlSys, closeFd, cver, hfs, hrep, fcntlCmd, fcntlFl,
      List.lookup, List.eraseP_cons, F_WRLCK, F_RDLCK, F_UNLCK, F_SETLK, F_SETLKW, SEEK_SET]

theorem unlock_eq_ok (env : Env) (st : Sys) (h : FileLock) (p : String)
    (hfd : st.openFds.lookup h.file = some p) :
    FileLock.unlock env st h =
      (Except.ok (),
       { st with
         procLocks := st.procLocks.filter (fun q => ¬ q.1 = p)
         trace := Sysevent.fcntlCall h.file F_SETLK
             { l_type := F_UNLCK, l_whence := SEEK_SET, l_start := 0, l_len := 0, l_pid := 0 }
           :: st.trace }) := by
  simp [FileLock.unlock, fcntlSys, hfd, fcntlCmd, fcntlFl, F_UNLCK, F_SETLK, SEEK_SET]

theorem unlock_eq_badfd (env : Env) (st : Sys) (h : FileLock)
    (hfd : st.openFds.lookup h.file = none) :
    FileLock.unlock env st h =
      (Except.error { code := EBADF },
       { st with
         trace := Sysevent.fcntlCall h.file F_SETLK
             { l_type := F_UNLCK, l_whence := SEEK_SET, l_start := 0, l_len := 0, l_pid := 0 }
           :: st.trace }) := by
  simp [FileLock.unlock, fcntlSys, cver, hfd, fcntlCmd, fcntlFl, F_UNLCK, F_SETLK, SEEK_SET]

theorem c_lock_eq_neg (env : Env) (st : Sys) (fd bI wI : Int) (h : fd < 0) :
    c_lock env st fd bI wI = (EBADF, st) := by
  simp [c_lock, h]

theorem c_lock_eq_granted (env : Env) (st : Sys) (fd bI wI : Int) (p : String)
    (h : ¬ fd < 0) (hfd : st.openFds.lookup fd = some p) (hrep : env.lockReply = none) :
    c_lock env st fd bI wI =
      (0,
       { st with
         procLocks := (p, if wI ≠ 0 then F_WRLCK else F_RDLCK)
             :: st.procLocks.filter (fun q => ¬ q.1 = p)
         trace := Sysevent.fcntlCall fd (if bI ≠ 0 then F_SETLKW else F_SETLK)
             { l_type := if wI ≠ 0 then F_WRLCK else F_RDLCK, l_whence := SEEK_SET,
               l_start := 0, l_len := 0, l_pid := 0 }
           :: st.trace }) := by
  by_cases hw : wI = 0 <;> by_cases hb : bI = 0 <;>
    simp [c_lock, fcntlSys, zeroFlock, h, hfd, hrep, hw, hb,
      F_WRLCK, F_RDLCK, F_UNLCK, F_SETLK, F_SETLKW, SEEK_SET]

theorem c_lock_eq_denied (env : Env) (st : Sys) (fd bI wI : Int) (p : String) (e : Int)
    (h : ¬ fd < 0) (hfd : st.openFds.lookup fd = some p) (hrep : env.lockReply = some e) :
    c_lock env st fd bI wI =
      (e,
       { st with
         trace := Sysevent.fcntlCall fd (if bI ≠ 0 then F_SETLKW else F_SETLK)
             { l_type := if wI ≠ 0 then F_WRLCK else F_RDLCK, l_whence := SEEK_SET,
               l_start := 0, l_len := 0, l_pid := 0 }
           :: st.trace }) := by
  by_cases hw : wI = 0 <;> by_cases hb : bI = 0 <;>
    simp [c_lock, fcntlSys, zeroFlock, h, hfd, hrep, hw, hb,
      F_WRLCK, F_RDLCK, F_UNLCK, F_SETLK, F_SETLKW, SEEK_SET]

theorem c_unlock_eq_neg (env : Env) (st : Sys) (fd : Int) (h : fd < 0) :
    c_unlock env st fd = (EBADF, st) := by
  simp [c_unlock, h]

theorem c_unlock_eq_ok (env : Env) (st : Sys) (fd : Int) (p : String)
    (h : ¬ fd < 0) (hfd : st.openFds.lookup fd = some p) :
    c_unlock env st fd =
      (0,
       { st with
         procLocks := st.procLocks.filter (fun q => ¬ q.1 = p)
         trace := Sysevent.fcntlCall fd F_SETLK
             { l_type := F_UNLCK, l_whence := SEEK_SET, l_start := 0, l_len := 0, l_pid := 0 }
           :: st.trace }) := by
  simp [c_unlock, fcntlSys, zeroFlock, h, hfd, F_UNLCK, F_SETLK, SEEK_SET]

/-- C1: acquisition is atomic from the caller's perspective: whenever the
open step or the lock step fails, no handle is produced, the just-opened
descriptor (if any) is closed again — the open-descriptor table is exactly
what it was — no lock is retained (every record lock still held after the
failure was already held before the call; the close on the failure path
can only release locks, per the process-associated semantics of POSIX),
and the error surfaced carries an OS code; whenever both steps succeed,
the returned handle owns the freshly opened descriptor, which is open on
the requested path. -/
theorem c1_acquire_atomic (env : Env) (st : Sys) (p : String) (b w : Bool) :
    (∀ h st', FileLock.lock env st p b w = (Except.ok h, st') →
        h.file = st.nextFd ∧ st'.openFds = (st.nextFd, p) :: st.openFds ∧
        st'.openFds.lookup h.file = some p) ∧
    (∀ e st', FileLock.lock env st p b w = (Except.error e, st') →
        st'.openFds = st.openFds ∧
        (∀ q, q ∈ st'.procLocks → q ∈ st.procLocks) ∧
        ∃ c, e = { code := c }) := by
  rcases hfs : st.fs.lookup p with _ | cont
  · cases w
    · rw [lock_eq_open_fail env st p b hfs]
      constructor
      · intro h st' hEq; simp at hEq
      · intro e st' hEq
        simp only [Prod.mk.injEq, Except.error.injEq] at hEq
        obtain ⟨rfl, rfl⟩ := hEq
        exact ⟨rfl, fun q hq => hq, ENOENT, rfl⟩
    · rcases hrep : env.lockReply with _ | e0
      · rw [lock_eq_created_granted env st p b hfs hrep]
        constructor
        · intro h st' hEq
          simp only [Prod.mk.injEq, Except.ok.injEq] at hEq
          obtain ⟨rfl, rfl⟩ := hEq
          refine ⟨rfl, rfl, ?_⟩
          simp [List.lookup]
        · intro e st' hEq; simp at hEq
      · rw [lock_eq_created_denied env st p b e0 hfs hrep]
        constructor
        · intro h st' hEq; simp at hEq
        · intro e st' hEq
          simp only [Prod.mk.injEq, Except.error.injEq] at hEq
          obtain ⟨rfl, rfl⟩ := hEq
          exact ⟨rfl, fun q hq => List.mem_of_mem_filter hq, e0, rfl⟩
  · rcases hrep : env.lockReply with _ | e0
    · rw [lock_eq_existing_granted env st p b w cont hfs hrep]
      constructor
      · intro h st' hEq
        simp only [Prod.mk.injEq, Except.ok.injEq] at hEq
        obtain ⟨rfl, rfl⟩ := hEq
        refine ⟨rfl, rfl, ?_⟩
        simp [List.lookup]
      · intro e st' hEq; simp at hEq
    · rw [lock_eq_existing_denied env st p b w cont e0 hfs hrep]
      constructor
      · intro h st' hEq; simp at hEq
      · intro e st' hEq
        simp only [Prod.mk.injEq, Except.error.injEq] at hEq
        obtain ⟨rfl, rfl⟩ := hEq
        exact ⟨rfl, fun q hq => List.mem_of_mem_filter hq, e0, rfl⟩

theorem classify_mem (e : OsErr) :
    classify e = LockError.InvalidDescriptor ∨ classify e = LockError.WouldBlock ∨
    classify e = LockError.Interrupted ∨ classify e = LockError.IoCode e.code := by
  unfold classify
  split_ifs <;> simp

theorem lock_request (env : Env) (st : Sys) (p : String) (b w : Bool)
    (hopen : (st.fs.lookup p).isSome ∨ w = true) :
    lastRequest (FileLock.lock env st p b w).2 =
      some (if b then F_SETLKW else F_SETLK,
        { l_type := if w then F_WRLCK else F_RDLCK, l_whence := SEEK_SET,
          l_start := 0, l_len := 0, l_pid := 0 }) := by
  rcases hfs : st.fs.lookup p with _ | cont
  · rcases hopen with hx | hx
    · rw [hfs] at hx; simp at hx
    · subst hx
      rcases hrep : env.lockReply with _ | e0
      · rw [lock_eq_created_granted env st p b hfs hrep]; simp [lastRequest]
      · rw [lock_eq_created_denied env st p b e0 hfs hrep]; simp [lastRequest]
  · rcases hrep : env.lockReply with _ | e0
    · rw [lock_eq_existing_granted env st p b w cont hfs hrep]; simp [lastRequest]
    · rw [lock_eq_existing_denied env st p b w cont e0 hfs hrep]; simp [lastRequest]

theorem unlock_request (env : Env) (st : Sys) (h : FileLock) (p : String)
    (hfd : st.openFds.lookup h.file = some p) :
    lastRequest (FileLock.unlock env st h).2 =
      some (F_SETLK,
        { l_type := F_UNLCK, l_whence := SEEK_SET, l_start := 0, l_len := 0, l_pid := 0 }) := by
  rw [unlock_eq_ok env st h p hfd]; simp [lastRequest]

theorem c_lock_request (env : Env) (st : Sys) (fd bI wI : Int) (p : String)
    (h : ¬ fd < 0) (hfd : st.openFds.lookup fd = some p) :
    lastRequest (c_lock env st fd bI wI).2 =
      some (if bI ≠ 0 then F_SETLKW else F_SETLK,
        { l_type := if wI ≠ 0 then F_WRLCK else F_RDLCK, l_whence := SEEK_SET,
          l_start := 0, l_len := 0, l_pid := 0 }) := by
  rcases hrep : env.lockReply with _ | e0
  · rw [c_lock_eq_granted env st fd bI wI p h hfd hrep]; simp [lastRequest]
  · rw [c_lock_eq_denied env st fd bI wI p e0 h hfd hrep]; simp [lastRequest]

theorem c_unlock_request (env : Env) (st : Sys) (fd : Int) (p : String)
    (h : ¬ fd < 0) (hfd : st.openFds.lookup fd = some p) :
    lastRequest (c_unlock env st fd).2 =
      some (F_SETLK,
        { l_type := F_UNLCK, l_whence := SEEK_SET, l_start := 0, l_len := 0, l_pid := 0 }) := by
  rw [c_unlock_eq_ok env st fd p h hfd]; simp [lastRequest]

/-- C2: whenever acquisition reaches the lock step (the file exists or is
created because writeable is set), the native request it issues has lock
type F_WRLCK iff writeable and F_RDLCK otherwise, whence SEEK_SET, start
0, length 0 (whole file), and is issued with command F_SETLKW iff
blocking and F_SETLK otherwise. -/
theorem c2_request_translation (env : Env) (st : Sys) (p : String) (b w : Bool)
    (hopen : (st.fs.lookup p).isSome ∨ w = true) :
    lastRequest (FileLock.lock env st p b w).2 =
      some (if b then F_SETLKW else F_SETLK,
        { l_type := if w then F_WRLCK else F_RDLCK, l_whence := SEEK_SET,
          l_start := 0, l_len := 0, l_pid := 0 }) :=
  lock_request env st p b w hopen

/-- C3: the destructor of a handle is exactly an invocation of the unlock
procedure with its result discarded, followed by the close of the owned
descriptor; afterwards the process holds no record lock on the path of the
handle, so a lock never outlives its handle. -/
theorem c3_drop_releases (env : Env) (st : Sys) (h : FileLock) (p : String)
    (hfd : st.openFds.lookup h.file = some p) :
    FileLock.drop env st h = closeFd h.file (FileLock.unlock env st h).2 ∧
    ((FileLock.drop env st h).procLocks.lookup p = none) := by
  refine ⟨rfl, ?_⟩
  show (closeFd h.file (FileLock.unlock env st h).2).procLocks.lookup p = none
  rw [unlock_eq_ok env st h p hfd]
  show (match st.openFds.lookup h.file with
    | some path =>
        (st.procLocks.filter (fun (q : String × Int) => ¬ q.1 = p)).filter
          (fun (q : String × Int) => ¬ q.1 = path)
    | none =>
        st.procLocks.filter (fun (q : String × Int) => ¬ q.1 = p)).lookup p = none
  rw [hfd]
  exact lookup_filter_not p (st.procLocks.filter (fun q => ¬ q.1 = p))

/-- C4: acquisition opens the file with read access always and with write
and create access exactly when writeable is set; when the file is absent
and writeable is false, it fails with ENOENT and no fcntl lock request is
ever issued. -/
theorem c4_open_discipline (env : Env) (st : Sys) (p : String) (b w : Bool) :
    firstOpenCall ((FileLock.lock env st p b w).2).trace = some (p, true, w, w, false) ∧
    (st.fs.lookup p = none → w = false →
      (FileLock.lock env st p b w).1 = Except.error { code := ENOENT } ∧
      fcntlCount ((FileLock.lock env st p b w).2).trace = fcntlCount st.trace) := by
  constructor
  · rcases hfs : st.fs.lookup p with _ | cont
    · cases w
      · rw [lock_eq_open_fail env st p b hfs]; simp [firstOpenCall]
      · rcases hrep : env.lockReply with _ | e0
        · rw [lock_eq_created_granted env st p b hfs hrep]; simp [firstOpenCall]
        · rw [lock_eq_created_denied env st p b e0 hfs hrep]; simp [firstOpenCall]
    · rcases hrep : env.lockReply with _ | e0
      · rw [lock_eq_existing_granted env st p b w cont hfs hrep]; simp [firstOpenCall]
      · rw [lock_eq_existing_denied env st p b w cont e0 hfs hrep]; simp [firstOpenCall]
  · intro hfs hw
    subst hw
    rw [lock_eq_open_fail env st p b hfs]
    simp [fcntlCount, List.filter_cons]

/-- C5: unlock issues the non-blocking F_SETLK command with an F_UNLCK
whole-file descriptor on the owned file, succeeds, leaves the descriptor
table untouched (the file is not closed), and a second unlock on the same
handle succeeds again: unlocking is idempotent. -/
theorem c5_unlock_idempotent (env env2 : Env) (st : Sys) (h : FileLock) (p : String)
    (hfd : st.openFds.lookup h.file = some p) :
    (FileLock.unlock env st h).1 = Except.ok () ∧
    ((FileLock.unlock env st h).2).openFds = st.openFds ∧
    lastRequest (FileLock.unlock env st h).2 =
      some (F_SETLK,
        { l_type := F_UNLCK, l_whence := SEEK_SET, l_start := 0, l_len := 0, l_pid := 0 }) ∧
    (FileLock.unlock env2 (FileLock.unlock env st h).2 h).1 = Except.ok () := by
  have h1 := unlock_eq_ok env st h p hfd
  have hfd2 : ((FileLock.unlock env st h).2).openFds.lookup h.file = some p := by
    rw [h1]; exact hfd
  have h2 := unlock_eq_ok env2 ((FileLock.unlock env st h).2) h p hfd2
  refine ⟨?_, ?_, ?_, ?_⟩
  · rw [h1]
  · rw [h1]
  · exact unlock_request env st h p hfd
  · rw [h2]

/-- C6: every failure of acquisition or unlock is surfaced to the
immediate caller as an error value carrying the original OS failure code
(for acquisition, either the ENOENT of the failed open or exactly the code
with which the kernel refused the lock request), whose classification
falls in the closed taxonomy InvalidDescriptor, WouldBlock, Interrupted,
IoCode; acquisition issues at most one lock syscall and unlock exactly
one: there is no silent recovery or automatic retry. -/
theorem c6_closed_errors (env : Env) (st : Sys) (p : String) (b w : Bool) (h : FileLock) :
    (∀ e st', FileLock.lock env st p b w = (Except.error e, st') →
        (e = { code := ENOENT } ∨ env.lockReply = some e.code) ∧
        (classify e = LockError.InvalidDescriptor ∨ classify e = LockError.WouldBlock ∨
         classify e = LockError.Interrupted ∨ classify e = LockError.IoCode e.code)) ∧
    fcntlCount ((FileLock.lock env st p b w).2).trace ≤ fcntlCount st.trace + 1 ∧
    (∀ e st', FileLock.unlock env st h = (Except.error e, st') →
        e = { code := EBADF } ∧ classify e = LockError.InvalidDescriptor) ∧
    fcntlCount ((FileLock.unlock env st h).2).trace = fcntlCount st.trace + 1 := by
  refine ⟨?_, ?_, ?_, ?_⟩
  · intro e st' hEq
    refine ⟨?_, classify_mem e⟩
    rcases hfs : st.fs.lookup p with _ | cont
    · cases w
      · rw [lock_eq_open_fail env st p b hfs] at hEq
        simp only [Prod.mk.injEq, Except.error.injEq] at hEq
        exact Or.inl hEq.1.symm
      · rcases hrep : env.lockReply with _ | e0
        · rw [lock_eq_created_granted env st p b hfs hrep] at hEq; simp at hEq
        · rw [lock_eq_created_denied env st p b e0 hfs hrep] at hEq
          simp only [Prod.mk.injEq, Except.error.injEq] at hEq
          exact Or.inr (by rw [← hEq.1])
    · rcases hrep : env.lockReply with _ | e0
      · rw [lock_eq_existing_granted env st p b w cont hfs hrep] at hEq; simp at hEq
      · rw [lock_eq_existing_denied env st p b w cont e0 hfs hrep] at hEq
        simp only [Prod.mk.injEq, Except.error.injEq] at hEq
        exact Or.inr (by rw [← hEq.1])
  · rcases hfs : st.fs.lookup p with _ | cont
    · cases w
      · rw [lock_eq_open_fail env st p b hfs]
        simp [fcntlCount, List.filter_cons]
      · rcases hrep : env.lockReply with _ | e0
        · rw [lock_eq_created_granted env st p b hfs hrep]
          simp [fcntlCount, List.filter_cons]
        · rw [lock_eq_created_denied env st p b e0 hfs hrep]
          simp [fcntlCount, List.filter_cons]
    · rcases hrep : env.lockReply with _ | e0
      · rw [lock_eq_existing_granted env st p b w cont hfs hrep]
        simp [fcntlCount, List.filter_cons]
      · rw [lock_eq_existing_denied env st p b w cont e0 hfs hrep]
        simp [fcntlCount, List.filter_cons]
  · intro e st' hEq
    rcases hfd : st.openFds.lookup h.file with _ | q
    · rw [unlock_eq_badfd env st h hfd] at hEq
      simp only [Prod.mk.injEq, Except.error.injEq] at hEq
      refine ⟨hEq.1.symm, ?_⟩
      rw [← hEq.1]
      simp [classify, EBADF]
    · rw [unlock_eq_ok env st h q hfd] at hEq; simp at hEq
  · rcases hfd : st.openFds.lookup h.file with _ | q
    · rw [unlock_eq_badfd env st h hfd]
      simp [fcntlCount, List.filter_cons]
    · rw [unlock_eq_ok env st h q hfd]
      simp [fcntlCount, List.filter_cons]

/-- C7: the builder starts from blocking=false and writeable=false with
the given path, the two setters are chainable, order-independent and
last-write-wins, each updating only its own field, and the terminal lock
of the builder performs acquisition with exactly the accumulated triple;
the builder operations are pure and touch no OS state. -/
theorem c7_builder (p0 : String) (bb : FileLockBuilder) (v v1 v2 : Bool)
    (env : Env) (st : Sys) :
    FileLock.new p0 = { file_path := p0, blocking := false, writeable := false } ∧
    (bb.setBlocking v).file_path = bb.file_path ∧
    (bb.setBlocking v).blocking = v ∧
    (bb.setBlocking v).writeable = bb.writeable ∧
    (bb.setWriteable v).file_path = bb.file_path ∧
    (bb.setWriteable v).writeable = v ∧
    (bb.setWriteable v).blocking = bb.blocking ∧
    (bb.setBlocking v1).setWriteable v2 = (bb.setWriteable v2).setBlocking v1 ∧
    (bb.setBlocking v1).setBlocking v2 = bb.setBlocking v2 ∧
    (bb.setWriteable v1).setWriteable v2 = bb.setWriteable v2 ∧
    FileLockBuilder.lock env st bb =
      FileLock.lock env st bb.file_path bb.blocking bb.writeable :=
  ⟨rfl, rfl, rfl, rfl, rfl, rfl, rfl, rfl, rfl, rfl, rfl⟩

/-- C9: the raw entry points validate the descriptor before any syscall,
answering EBADF for every negative descriptor with the OS state untouched;
on a valid open descriptor they answer 0 when the kernel grants the
request and the raw OS error code when it refuses, and raw unlock answers
0. -/
theorem c9_raw_error_codes (env : Env) (st : Sys) (fd bI wI : Int) :
    (fd < 0 → c_lock env st fd bI wI = (EBADF, st) ∧ c_unlock env st fd = (EBADF, st)) ∧
    (¬ fd < 0 → ∀ p, st.openFds.lookup fd = some p →
      (env.lockReply = none → (c_lock env st fd bI wI).1 = 0) ∧
      (∀ e, env.lockReply = some e → (c_lock env st fd bI wI).1 = e) ∧
      (c_unlock env st fd).1 = 0) := by
  constructor
  · intro hneg
    exact ⟨c_lock_eq_neg env st fd bI wI hneg, c_unlock_eq_neg env st fd hneg⟩
  · intro hpos p hfd
    refine ⟨?_, ?_, ?_⟩
    · intro hrep
      rw [c_lock_eq_granted env st fd bI wI p hpos hfd hrep]
    · intro e hrep
      rw [c_lock_eq_denied env st fd bI wI p e hpos hfd hrep]
    · rw [c_unlock_eq_ok env st fd p hpos hfd]

/-- C10: acquisition never alters the contents of an existing file under
any combination of flags (the open path does not truncate), and acquiring
an absent path with writeable set creates that file empty. -/
theorem c10_contents_preserved (env : Env) (st : Sys) (p : String) (b w : Bool) :
    (∀ c, st.fs.lookup p = some c → ((FileLock.lock env st p b w).2).fs = st.fs) ∧
    (st.fs.lookup p = none → ((FileLock.lock env st p b true).2).fs.lookup p = some []) ∧
    (st.fs.lookup p = none → ((FileLock.lock env st p b false).2).fs = st.fs) := by
  refine ⟨?_, ?_, ?_⟩
  · intro c hfs
    rcases hrep : env.lockReply with _ | e0
    · rw [lock_eq_existing_granted env st p b w c hfs hrep]
    · rw [lock_eq_existing_denied env st p b w c e0 hfs hrep]
  · intro hfs
    rcases hrep : env.lockReply with _ | e0
    · rw [lock_eq_created_granted env st p b hfs hrep]
      simp [List.lookup]
    · rw [lock_eq_created_denied env st p b e0 hfs hrep]
      simp [List.lookup]
  · intro hfs
    rw [lock_eq_open_fail env st p b hfs]

/-- C8: the spec requires the raw entry points to run one shared
acquisition/translation routine with the core; the source instead
duplicates that logic in file_lock.rs (its own zeroed flock filled field
by field and a direct fcntl call, no routine shared with lib.rs).  This
theorem evaluates the duplicated code against the core: on corresponding
flags the raw acquisition emits the very same (command, flock descriptor)
pair as the core acquisition, raw unlock the same pair as core unlock,
and for the same kernel verdict the two surfaces differ only in how the
outcome is reported (0 or raw errno versus a structured result) — so the
semantic drift the sharing requirement is meant to exclude has not in
fact occurred, though the required sharing itself is absent from the
source. -/
theorem c8_surfaces_agree (env : Env) (st st2 : Sys) (p p2 : String) (b w : Bool)
    (bI wI fd fd2 : Int) (hh : FileLock) (q : String)
    (hb : bI ≠ 0 ↔ b = true) (hw : wI ≠ 0 ↔ w = true)
    (hopen : (st.fs.lookup p).isSome ∨ w = true)
    (hraw : ¬ fd < 0) (hfd : st2.openFds.lookup fd = some p2)
    (hraw2 : ¬ fd2 < 0) (hfd2 : st2.openFds.lookup fd2 = some p2)
    (hfdh : st.openFds.lookup hh.file = some q) :
    lastRequest (c_lock env st2 fd bI wI).2 = lastRequest (FileLock.lock env st p b w).2 ∧
    lastRequest (c_unlock env st2 fd2).2 = lastRequest (FileLock.unlock env st hh).2 ∧
    (env.lockReply = none →
      (c_lock env st2 fd bI wI).1 = 0 ∧
      ∃ hdl st', FileLock.lock env st p b w = (Except.ok hdl, st')) ∧
    (∀ e, env.lockReply = some e →
      (c_lock env st2 fd bI wI).1 = e ∧
      ∃ st', FileLock.lock env st p b w = (Except.error { code := e }, st')) := by
  refine ⟨?_, ?_, ?_, ?_⟩
  · rw [c_lock_request env st2 fd bI wI p2 hraw hfd, lock_request env st p b w hopen]
    cases b <;> cases w <;> simp_all
  · rw [c_unlock_request env st2 fd2 p2 hraw2 hfd2, unlock_request env st hh q hfdh]
  · intro hrep
    constructor
    · rw [c_lock_eq_granted env st2 fd bI wI p2 hraw hfd hrep]
    · rcases hfs : st.fs.lookup p with _ | cont
      · rcases hopen with hx | hx
        · rw [hfs] at hx; simp at hx
        · subst hx
          exact ⟨_, _, lock_eq_created_granted env st p b hfs hrep⟩
      · exact ⟨_, _, lock_eq_existing_granted env st p b w cont hfs hrep⟩
  · intro e hrep
    constructor
    · rw [c_lock_eq_denied env st2 fd bI wI p2 e hraw hfd hrep]
    · rcases hfs : st.fs.lookup p with _ | cont
      · rcases hopen with hx | hx
        · rw [hfs] at hx; simp at hx
        · subst hx
          exact ⟨_, lock_eq_created_denied env st p b e hfs hrep⟩
      · exact ⟨_, lock_eq_existing_denied env st p b w cont e hfs hrep⟩

/-- Witness for C1 at a concrete denied acquisition: the opened descriptor
is closed again, restoring the descriptor table. -/
theorem c1_acquire_atomic_witness :
    ((FileLock.lock { lockReply := some 11 } stA "f" false true).2).openFds = stA.openFds := by
  have h := (c1_acquire_atomic { lockReply := some 11 } stA "f" false true).2
      { code := 11 } (FileLock.lock { lockReply := some 11 } stA "f" false true).2 (by rfl)
  exact h.1

/-- Witness for C2 at a concrete blocking exclusive acquisition. -/
theorem c2_request_translation_witness :
    lastRequest (FileLock.lock { lockReply := none } stA "f" true true).2 =
      some (F_SETLKW,
        { l_type := F_WRLCK, l_whence := SEEK_SET, l_start := 0, l_len := 0, l_pid := 0 }) := by
  have h := c2_request_translation { lockReply := none } stA "f" true true (Or.inr rfl)
  simpa using h

/-- Witness for C3 at a concrete held lock: destruction releases it. -/
theorem c3_drop_releases_witness :
    (FileLock.drop { lockReply := none } stA { file := 3 }).procLocks.lookup "f" = none :=
  (c3_drop_releases { lockReply := none } stA { file := 3 } "f" (by rfl)).2

/-- Witness for C4 at a concrete absent read-only path. -/
theorem c4_open_discipline_witness :
    (FileLock.lock { lockReply := none } stA "g" false false).1 =
      Except.error { code := ENOENT } :=
  ((c4_open_discipline { lockReply := none } stA "g" false false).2 (by rfl) rfl).1

/-- Witness for C5 at the concrete held lock of stA. -/
theorem c5_unlock_idempotent_witness :
    (FileLock.unlock { lockReply := none } stA { file := 3 }).1 = Except.ok () ∧
    (FileLock.unlock { lockReply := none }
        (FileLock.unlock { lockReply := none } stA { file := 3 }).2 { file := 3 }).1 =
      Except.ok () := by
  have h := c5_unlock_idempotent { lockReply := none } { lockReply := none } stA
      { file := 3 } "f" (by rfl)
  exact ⟨h.1, h.2.2.2⟩

/-- Witness for C6 at a concrete refused acquisition: the surfaced error
carries exactly the errno of the kernel refusal. -/
theorem c6_closed_errors_witness :
    ({ code := 11 } : OsErr) = { code := ENOENT } ∨
      ({ lockReply := some 11 } : Env).lockReply = some ({ code := (11 : Int) } : OsErr).code :=
  ((c6_closed_errors { lockReply := some 11 } stA "f" false true { file := 3 }).1
      { code := 11 } (FileLock.lock { lockReply := some 11 } stA "f" false true).2 (by rfl)).1

/-- Witness for C8 at concrete corresponding inputs: both surfaces emit
the same request. -/
theorem c8_surfaces_agree_witness :
    lastRequest (c_lock { lockReply := none } stA 3 1 1).2 =
      lastRequest (FileLock.lock { lockReply := none } stA "f" true true).2 :=
  (c8_surfaces_agree { lockReply := none } stA stA "f" "f" true true 1 1 3 3
      { file := 3 } "f" (by decide) (by decide) (Or.inl rfl) (by decide) rfl
      (by decide) rfl rfl).1

/-- Witness for C9 at a concrete negative descriptor. -/
theorem c9_raw_error_codes_witness :
    c_lock { lockReply := none } stA (-1) 0 0 = (EBADF, stA) :=
  ((c9_raw_error_codes { lockReply := none } stA (-1) 0 0).1 (by decide)).1

/-- Witness for C10 at a concrete creating acquisition: the created file
is empty. -/
theorem c10_contents_preserved_witness :
    ((FileLock.lock { lockReply := none } stA "g" false true).2).fs.lookup "g" = some [] :=
  (c10_contents_preserved { lockReply := none } stA "g" false true).2.1 rfl
